import Mathlib

/-!
Formal model of the Footage Offloader transfer appliance (src/app.py).

Conventions of the shallow embedding:
* machine integers and byte counts are `Nat`; Python floats (timestamps,
  percentages, speeds) are `Rat`, so arithmetic is exact where the source
  computes with IEEE doubles;
* display-only string formatting that relies on Python float formatting
  (`human_size`, the Discord message bodies) is elided: a Discord
  notification is identified by the milestone threshold that caused it;
* `socketio.emit` calls carry no engine state and are not modeled;
* the filesystem, the wall clock, the externally-settable cancellation
  flag and the md5 comparison outcome are environment parameters
  (`Oracles`), threaded explicitly through the transfer worker.
-/

/-- Chunk size for file copies: 4 MiB (app.py line 43). -/
def CHUNK_SIZE : ℕ := 4 * 1024 * 1024

/-- Minimum file size accepted by the scanner: 1 MiB (app.py line 435). -/
def MIN_FILE_SIZE : ℕ := 1024 * 1024

/-- Cap on retained history entries (app.py line 131). -/
def MAX_HISTORY : ℕ := 50

/-- The configuration record (app.py lines 45-57 list the keys and their
defaults; `load_config` fills any missing key from the defaults, so every
field is always present). `discord_notify_milestones` is the configured
milestone threshold list. -/
structure Config where
  nas_ip : String
  nas_ip_local : String
  share_name : String
  subfolder : String
  smb_username : String
  smb_password : String
  smb_version : String
  verify_checksums : Bool
  use_tailscale : Bool
  discord_webhook : String
  discord_notify_milestones : List ℚ
deriving DecidableEq

/-- The default configuration (app.py lines 45-57). -/
def DEFAULT_CONFIG : Config :=
  { nas_ip := "100.109.23.38"
    nas_ip_local := "192.168.88.20"
    share_name := "archive"
    subfolder := ""
    smb_username := ""
    smb_password := ""
    smb_version := "3.0"
    verify_checksums := false
    use_tailscale := true
    discord_webhook := ""
    discord_notify_milestones := [25, 50, 75, 100] }

/-- The finish summary built at job finalization (app.py lines 627-634).
The source stores `duration` and `avg_speed` as display strings produced by
`format_duration`/`human_size`; the model keeps the underlying numbers. -/
structure FinishSummary where
  total_files : ℕ
  total_size : ℕ
  errors : List String
  duration : ℚ
  avg_speed : ℚ
  destination : String
deriving DecidableEq

/-- The persistent transfer state dictionary (app.py lines 69-90). -/
structure TransferState where
  active : Bool
  cancel_requested : Bool
  started_at : Option ℚ
  total_files : ℕ
  completed_files : ℕ
  current_file : String
  current_file_index : ℕ
  current_file_percent : ℚ
  total_bytes : ℕ
  bytes_done : ℕ
  overall_percent : ℚ
  speed_bps : ℚ
  eta_seconds : ℚ
  errors : List String
  destination : String
  file_list : List String
  completed_list : List String
  milestones_sent : Finset ℚ
  finished : Bool
  finish_summary : Option FinishSummary
deriving DecidableEq

/-- The initial `transfer_state` literal (app.py lines 69-90). -/
def initialTransferState : TransferState :=
  { active := false
    cancel_requested := false
    started_at := none
    total_files := 0
    completed_files := 0
    current_file := ""
    current_file_index := 0
    current_file_percent := 0
    total_bytes := 0
    bytes_done := 0
    overall_percent := 0
    speed_bps := 0
    eta_seconds := 0
    errors := []
    destination := ""
    file_list := []
    completed_list := []
    milestones_sent := ∅
    finished := false
    finish_summary := none }

/-- The speed tracker dictionary (app.py lines 101-104): a list of
(timestamp, cumulative bytes done) samples and the rolling window width. -/
structure SpeedTracker where
  samples : List (ℚ × ℕ)
  window : ℚ
deriving DecidableEq

/-- The initial `speed_tracker` literal (app.py lines 101-104). -/
def initialSpeedTracker : SpeedTracker :=
  { samples := [], window := 5 }

/-- One entry of `drive_state["files"]` as consumed by the transfer worker:
relative path and byte size (the precomputed `size_human` display string is
elided). -/
structure FileInfo where
  name : String
  size : ℕ
deriving DecidableEq

/-- format_duration (app.py lines 176-186). `int()` truncation is modeled
with the rational floor; the function is only ever applied to nonnegative
durations, where the two coincide. -/
def format_duration (seconds : ℚ) : String :=
  if seconds < 60 then
    toString ⌊seconds⌋.toNat ++ "s"
  else if seconds < 3600 then
    let t := ⌊seconds⌋.toNat
    toString (t / 60) ++ "m " ++ toString (t % 60) ++ "s"
  else
    let t := ⌊seconds⌋.toNat
    toString (t / 3600) ++ "h " ++ toString (t % 3600 / 60) ++ "m"

/-- format_eta (app.py lines 189-192). -/
def format_eta (seconds : ℚ) : String :=
  if seconds ≤ 0 then "almost done"
  else format_duration seconds ++ " remaining"

/-- The `for m in milestones` loop of `check_milestones` (app.py lines
204-239): for each configured threshold `m` with `pct >= m` that is not in
the sent set, add it to the sent set and send one Discord notification.
The returned list records the thresholds notified, in loop order; the
message bodies (lines 208-237) are display text and are elided. -/
def milestoneLoop (pct : ℚ) : List ℚ → Finset ℚ → Finset ℚ × List ℚ
  | [], sent => (sent, [])
  | m :: ms, sent =>
    if m ≤ pct ∧ m ∉ sent then
      let rest := milestoneLoop pct ms (insert m sent)
      (rest.1, m :: rest.2)
    else
      milestoneLoop pct ms sent

/-- check_milestones (app.py lines 195-239): reads the overall percentage,
returns immediately when no Discord webhook is configured (line 201-202),
otherwise walks the configured threshold list updating the sent set.
Returns the new transfer state and the list of thresholds notified. -/
def check_milestones (config : Config) (ts : TransferState) : TransferState × List ℚ :=
  let pct := ts.overall_percent
  let milestones := config.discord_notify_milestones
  let webhook := config.discord_webhook
  if webhook = "" then (ts, [])
  else
    let res := milestoneLoop pct milestones ts.milestones_sent
    ({ ts with milestones_sent := res.1 }, res.2)

/-- update_speed (app.py lines 245-264): append a (now, bytes_done) sample,
prune samples older than the window, and when at least two samples remain
and time has advanced, recompute `speed_bps` and `eta_seconds`.  `now` is
the `time.time()` value read at line 247. -/
def update_speed (now : ℚ) (tr : SpeedTracker) (ts : TransferState) :
    SpeedTracker × TransferState :=
  let appended := tr.samples ++ [(now, ts.bytes_done)]
  let cutoff := now - tr.window
  let samples := appended.filter fun s => decide (cutoff ≤ s.1)
  let tr' := { tr with samples := samples }
  if 2 ≤ samples.length then
    let oldest := samples.headD (now, ts.bytes_done)
    let dt := now - oldest.1
    let db := (ts.bytes_done : ℚ) - (oldest.2 : ℚ)
    if 0 < dt then
      let bps := db / dt
      let remaining := (ts.total_bytes : ℚ) - (ts.bytes_done : ℚ)
      (tr', { ts with
                speed_bps := bps
                eta_seconds := if 0 < bps then remaining / bps else 0 })
    else (tr', ts)
  else (tr', ts)

/-! ## File scanning (app.py lines 427-464) -/

/-- The fixed set of hidden / OS metadata directory names (app.py lines
437-441). -/
def HIDDEN_DIRS : List String :=
  [".Spotlight-V100", ".fseventsd", ".Trashes", ".TemporaryItems",
   ".DS_Store", "._.Trashes", ".journal", ".VolumeIcon.icns",
   "System Volume Information", "$RECYCLE.BIN", "RECYCLER"]

/-- One directory entry yielded by `root.rglob("*")`, as the scanner sees
it: the path relative to the mount root (segments joined by "/"), whether
it is a regular file, its byte size, and whether `stat()` succeeds on it
(`readable = false` models an unreadable entry whose `stat` raises). -/
structure FsEntry where
  path : String
  isFile : Bool
  size : ℕ
  readable : Bool
deriving DecidableEq

/-- The result entries of `scan_files`: relative path and byte size (the
`size_human` display string, produced by `human_size`, is elided). -/
structure ScanEntry where
  name : String
  size : ℕ
deriving DecidableEq

/-- Split a character list on a separator character (the semantics of
Python `str.split(sep)` / `PurePath.parts` for relative paths). -/
def splitOnChar (c : Char) : List Char → List (List Char)
  | [] => [[]]
  | x :: xs =>
    let rest := splitOnChar c xs
    if x = c then [] :: rest
    else (x :: rest.headD []) :: rest.tail

/-- The "/"-separated segments of a relative path string. -/
def pathSegs (s : String) : List String :=
  (splitOnChar '/' s.toList).map String.mk

/-- Bool test that `pat` begins the list `l` (Python `str.startswith`). -/
def listStarts : List Char → List Char → Bool
  | [], _ => true
  | _ :: _, [] => false
  | p :: ps, c :: cs => p = c && listStarts ps cs

/-- Python `s.startswith(pat)`. -/
def strStarts (s pat : String) : Bool :=
  listStarts pat.toList s.toList

/-- Python `pat in s` (substring containment). -/
def strContains (s pat : String) : Bool :=
  (s.toList.tails.map (listStarts pat.toList)).any id

/-- Python `s.lower()`. -/
def lowerString (s : String) : String :=
  String.mk (s.toList.map Char.toLower)

/-- Python `s.strip()`. -/
def trimString (s : String) : String :=
  String.mk
    (((s.toList.dropWhile Char.isWhitespace).reverse.dropWhile Char.isWhitespace).reverse)

/-- The hidden/system check of app.py line 451: some path segment starts
with "." or is one of the known metadata directory names. -/
def hiddenPath (path : String) : Bool :=
  (pathSegs path).any fun p => strStarts p "." || HIDDEN_DIRS.contains p

/-- The body of the `for fp in sorted(root.rglob("*"))` loop (app.py lines
448-461), with Python exception semantics made explicit: the whole loop
runs inside one `try`, so the first entry whose `stat()` raises aborts the
walk and the entries accumulated so far are returned (lines 462-463). -/
def scanLoop : List FsEntry → List ScanEntry → List ScanEntry
  | [], acc => acc
  | e :: rest, acc =>
    if hiddenPath e.path then scanLoop rest acc
    else if e.isFile then
      if e.readable then
        if e.size < MIN_FILE_SIZE then scanLoop rest acc
        else scanLoop rest (acc ++ [{ name := e.path, size := e.size }])
      else acc
    else scanLoop rest acc

/-- Lexicographic comparison of character lists through the character
code points: the order with which `sorted(root.rglob("*"))` arranges
(case-sensitive) relative paths. -/
def charListLe : List Char → List Char → Bool
  | [], _ => true
  | _ :: _, [] => false
  | a :: as, b :: bs =>
    if a.toNat = b.toNat then charListLe as bs
    else decide (a.toNat < b.toNat)

/-- String order via `charListLe`. -/
def strLe (a b : String) : Prop := charListLe a.toList b.toList = true

instance (a b : String) : Decidable (strLe a b) := by
  unfold strLe; infer_instance

/-- The path order used by `sorted(root.rglob("*"))`. -/
def pathLe (a b : FsEntry) : Prop := strLe a.path b.path

instance : DecidableRel pathLe := fun a b => by
  unfold pathLe; infer_instance

theorem charListLe_total : ∀ as bs : List Char,
    charListLe as bs = true ∨ charListLe bs as = true := by
  intro as
  induction as with
  | nil => intro bs; left; rfl
  | cons a as ih =>
    intro bs
    cases bs with
    | nil => right; rfl
    | cons b bs =>
      by_cases h : a.toNat = b.toNat
      · rcases ih bs with h' | h'
        · left; simp [charListLe, h, h']
        · right; simp [charListLe, h.symm, h']
      · rcases Nat.lt_or_ge a.toNat b.toNat with hlt | hge
        · left; simp [charListLe, h, hlt]
        · right
          have hba : b.toNat ≠ a.toNat := fun hh => h hh.symm
          simp [charListLe, hba, lt_of_le_of_ne hge hba]

theorem charListLe_trans : ∀ as bs cs : List Char,
    charListLe as bs = true → charListLe bs cs = true → charListLe as cs = true := by
  intro as
  induction as with
  | nil => intro bs cs _ _; rfl
  | cons a as ih =>
    intro bs cs hab hbc
    cases bs with
    | nil => simp [charListLe] at hab
    | cons b bs =>
      cases cs with
      | nil => simp [charListLe] at hbc
      | cons c cs =>
        simp only [charListLe] at hab hbc ⊢
        by_cases h1 : a.toNat = b.toNat
        · by_cases h2 : b.toNat = c.toNat
          · simp only [if_pos h1] at hab
            simp only [if_pos h2] at hbc
            simp only [if_pos (h1.trans h2)]
            exact ih bs cs hab hbc
          · simp only [if_pos h1] at hab
            simp only [if_neg h2, decide_eq_true_eq] at hbc
            have hac : a.toNat ≠ c.toNat := by omega
            simp only [if_neg hac, decide_eq_true_eq]
            omega
        · by_cases h2 : b.toNat = c.toNat
          · simp only [if_neg h1, decide_eq_true_eq] at hab
            have hac : a.toNat ≠ c.toNat := by omega
            simp only [if_neg hac, decide_eq_true_eq]
            omega
          · simp only [if_neg h1, decide_eq_true_eq] at hab
            simp only [if_neg h2, decide_eq_true_eq] at hbc
            have hac : a.toNat ≠ c.toNat := by omega
            simp only [if_neg hac, decide_eq_true_eq]
            omega

instance : IsTotal FsEntry pathLe :=
  ⟨fun a b => charListLe_total a.path.toList b.path.toList⟩

instance : IsTrans FsEntry pathLe :=
  ⟨fun _ _ _ h h' => charListLe_trans _ _ _ h h'⟩

/-- scan_files (app.py lines 444-464): walk the sorted enumeration,
skipping hidden/system paths and files under the size floor; an entry
whose `stat` raises ends the scan early with the entries collected so
far. -/
def scan_files (entries : List FsEntry) : List ScanEntry :=
  scanLoop (entries.insertionSort pathLe) []

/-- An entry whose `stat()` raises inside the scan loop: a non-hidden
regular file that is not readable.  Reaching such an entry aborts the
whole walk (the `except` at app.py line 462). -/
def scanAborts (e : FsEntry) : Bool :=
  e.isFile && !hiddenPath e.path && !e.readable

/-- The entry the scan loop emits for `e`, if any: non-hidden, a regular
file, readable, and at least `MIN_FILE_SIZE` bytes. -/
def scanKeeps (e : FsEntry) : Option ScanEntry :=
  if !hiddenPath e.path && e.isFile && e.readable && decide (MIN_FILE_SIZE ≤ e.size) then
    some { name := e.path, size := e.size }
  else none

/-! ## USB drive detection (app.py lines 277-351) -/

/-- One block device node as it appears in `lsblk -J` output; used both
for top-level devices and for their `children` partitions. -/
structure LsblkPart where
  name : String
  size : Option String
  type : String
  fstype : Option String
  mountpoint : Option String
deriving DecidableEq

/-- One top-level entry of `lsblk -J`'s `blockdevices` array: its own
node fields plus `tran`, `model` and the `children` list. -/
structure LsblkDev where
  self : LsblkPart
  tran : Option String
  model : Option String
  children : List LsblkPart
deriving DecidableEq

/-- A detected drive record as built by `find_usb_drives` (app.py lines
299-305 and 341-347). -/
structure Drive where
  device : String
  size : String
  model : String
  fstype : String
  mountpoint : Option String
deriving DecidableEq

/-- Python `x or default` on an optional string: `None` and `""` both fall
back to the default. -/
def orDefault (s : Option String) (d : String) : String :=
  match s with
  | none => d
  | some v => if v = "" then d else v

/-- The lsblk branch of `find_usb_drives` (app.py lines 286-305): keep
only devices whose `tran` is "usb" (line 290-292 — despite the comment on
lines 288-289 announcing that devices with a model but empty `tran` are
also accepted), then collect their partitions (or the device itself when
it has no children) of type "part" or "disk". -/
def lsblkScan (devs : List LsblkDev) : List Drive :=
  devs.foldl
    (fun acc dev =>
      let tran := lowerString (orDefault dev.tran "")
      if tran ≠ "usb" then acc
      else
        let targets := if dev.children.isEmpty then [dev.self] else dev.children
        acc ++ (targets.filter fun p => p.type = "part" || p.type = "disk").map
          (fun p =>
            { device := "/dev/" ++ p.name
              size := p.size.getD "?"
              model := trimString (orDefault dev.model "USB Drive")
              fstype := orDefault p.fstype ""
              mountpoint := p.mountpoint }))
    []

/-- One symlink in /dev/disk/by-id as consumed by the fallback branch:
the link file name, the resolved target path (`str(real)`), and the
whitespace-split words of `lsblk -n -o SIZE,FSTYPE` on the target
(`none` models the inner try/except swallowing a failure). -/
structure ByIdLink where
  name : String
  target : String
  info : Option (List String)
deriving DecidableEq

/-- Substring test for "-part" in a link name (Python `"-part" in s`). -/
def hasPartMarker (s : String) : Bool :=
  strContains s "-part"

/-- The /dev/disk/by-id fallback of `find_usb_drives` (app.py lines
311-347): usb- prefixed links, skipping whole-disk links that have a
partition link, reading size/fstype from a nested lsblk call. -/
def byIdScan (links : List ByIdLink) : List Drive :=
  links.foldl
    (fun acc link =>
      if ¬ strStarts link.name "usb-" then acc
      else if ¬ hasPartMarker link.name ∧
              links.any (fun p => strStarts p.name (link.name ++ "-part")) then acc
      else
        let ws := link.info.getD []
        let size := ws.headD "?"
        let fstype := if 1 < ws.length then (ws.get? 1).getD "" else ""
        acc ++ [{ device := link.target
                  size := size
                  model := "USB Drive"
                  fstype := fstype
                  mountpoint := none }])
    []

/-- find_usb_drives (app.py lines 277-351).  `lsblk = none` models the
outer `try` failing (tool error, timeout, nonzero exit, or empty output):
the `except` logs and leaves `drives` empty.  `byId = none` models
/dev/disk/by-id being absent or its walk raising.  The fallback branch
runs only when the primary scan produced no drives (line 310). -/
def find_usb_drives (lsblk : Option (List LsblkDev))
    (byId : Option (List ByIdLink)) : List Drive :=
  let drives := match lsblk with
    | none => []
    | some devs => lsblkScan devs
  if drives.isEmpty then
    match byId with
    | none => []
    | some links => byIdScan links
  else drives

/-! ## Global drive state and full state snapshot (app.py lines 93-98 and
744-785) -/

/-- The `drive_state` dictionary (app.py lines 93-98). -/
structure DriveState where
  drive : Option Drive
  drive_mounted : Bool
  nas_mounted : Bool
  files : List FileInfo
deriving DecidableEq

/-- The configuration as exposed to clients: every key except
`smb_password` (app.py line 751). -/
structure PublicConfig where
  nas_ip : String
  nas_ip_local : String
  share_name : String
  subfolder : String
  smb_username : String
  smb_version : String
  verify_checksums : Bool
  use_tailscale : Bool
  discord_webhook : String
  discord_notify_milestones : List ℚ
deriving DecidableEq

/-- The dict comprehension `{k: v for k, v in cfg.items() if k != "smb_password"}`
(app.py line 751). -/
def configPublic (c : Config) : PublicConfig :=
  { nas_ip := c.nas_ip
    nas_ip_local := c.nas_ip_local
    share_name := c.share_name
    subfolder := c.subfolder
    smb_username := c.smb_username
    smb_version := c.smb_version
    verify_checksums := c.verify_checksums
    use_tailscale := c.use_tailscale
    discord_webhook := c.discord_webhook
    discord_notify_milestones := c.discord_notify_milestones }

/-- The `transfer` sub-dictionary of the full snapshot (app.py lines
755-775).  `speed_human` (line 767) duplicates `speed_bps` through the
float-formatting `human_size` and is elided; `eta_human` (line 769) is
kept because `format_eta` is modeled. -/
structure TransferSnapshot where
  active : Bool
  finished : Bool
  total_files : ℕ
  completed_files : ℕ
  current_file : String
  current_file_index : ℕ
  current_file_percent : ℚ
  total_bytes : ℕ
  bytes_done : ℕ
  overall_percent : ℚ
  speed_bps : ℚ
  eta_seconds : ℚ
  eta_human : String
  errors : List String
  destination : String
  file_list : List String
  completed_list : List String
  finish_summary : Option FinishSummary
deriving DecidableEq

/-- The full state snapshot (app.py lines 744-776).  History entries are
opaque pass-through records from the history collaborator, modeled as
strings. -/
structure Snapshot where
  drive : Option Drive
  drive_mounted : Bool
  nas_mounted : Bool
  files : List FileInfo
  config : PublicConfig
  config_has_password : Bool
  history : List String
  transfer : TransferSnapshot
deriving DecidableEq

/-- get_full_state (app.py lines 744-776): the complete state delivered
to every newly connected observer and returned by the `/api/status`
route.  `cfg` is the result of `load_config()` and `history` the result
of `load_history()`, both supplied by external collaborators. -/
def get_full_state (cfg : Config) (ds : DriveState) (ts : TransferState)
    (history : List String) : Snapshot :=
  { drive := ds.drive
    drive_mounted := ds.drive_mounted
    nas_mounted := ds.nas_mounted
    files := ds.files
    config := configPublic cfg
    config_has_password := cfg.smb_password ≠ ""
    history := history
    transfer :=
      { active := ts.active
        finished := ts.finished
        total_files := ts.total_files
        completed_files := ts.completed_files
        current_file := ts.current_file
        current_file_index := ts.current_file_index
        current_file_percent := ts.current_file_percent
        total_bytes := ts.total_bytes
        bytes_done := ts.bytes_done
        overall_percent := ts.overall_percent
        speed_bps := ts.speed_bps
        eta_seconds := ts.eta_seconds
        eta_human := if ts.eta_seconds ≠ 0 then format_eta ts.eta_seconds else ""
        errors := ts.errors
        destination := ts.destination
        file_list := ts.file_list
        completed_list := ts.completed_list
        finish_summary := ts.finish_summary } }

/-- The socket connect handler (app.py lines 782-785) emits exactly one
`status` event whose payload is the full state snapshot. -/
def on_connect (cfg : Config) (ds : DriveState) (ts : TransferState)
    (history : List String) : Snapshot :=
  get_full_state cfg ds ts history

/-- The REST status route (app.py lines 738-741) returns the same
snapshot. -/
def api_status (cfg : Config) (ds : DriveState) (ts : TransferState)
    (history : List String) : Snapshot :=
  get_full_state cfg ds ts history

/-! ## Start / cancel handlers (app.py lines 843-878) -/

/-- Outcome of a `start_transfer` request: a synchronous rejection with
its error message, or the spawn of a worker thread on the given selected
names and configuration snapshot. -/
inductive StartResult where
  | rejected (message : String)
  | spawned (selected : List String) (cfg : Config)
deriving DecidableEq

/-- on_start_transfer (app.py lines 843-866).  `data` is the "files"
field of the request (`data.get("files", [])`); `cfg` is the result of
`load_config()` at line 864.  Checks, in order: a job already active, the
USB drive not mounted, the NAS not mounted, and an empty selected list;
each rejection returns synchronously with the transfer state untouched.
Otherwise the previous finish state is cleared (lines 861-862) and a
worker is spawned on the raw selected names. -/
def on_start_transfer (cfg : Config) (ds : DriveState) (ts : TransferState)
    (data : List String) : StartResult × TransferState :=
  if ts.active then (.rejected "Transfer already in progress", ts)
  else if ¬ ds.drive_mounted then (.rejected "No USB drive connected", ts)
  else if ¬ ds.nas_mounted then (.rejected "NAS not connected", ts)
  else if data.isEmpty then (.rejected "No files selected", ts)
  else (.spawned data cfg, { ts with finished := false, finish_summary := none })

/-- on_cancel_transfer (app.py lines 869-871). -/
def on_cancel_transfer (ts : TransferState) : TransferState :=
  { ts with cancel_requested := true }

/-- on_clear_finished (app.py lines 874-878). -/
def on_clear_finished (ts : TransferState) : TransferState :=
  { ts with finished := false, finish_summary := none }

/-! ## The transfer worker (app.py lines 470-655)

The worker runs on its own thread against the process-global state.  The
model threads an explicit `World` (transfer state, speed tracker, and the
destination directory contents) plus two counters: `r`, the number of
reads of the externally-settable `cancel_requested` flag performed so
far, and `c`, the number of `time.time()` calls performed so far.  The
environment is an `Oracles` record:

* `cancelAt = some k` means the cancellation flag (set by
  `on_cancel_transfer` from another thread, monotone within a job) reads
  `False` for the first `k` reads and `True` from read index `k` on;
  `none` means cancellation is never requested;
* `clock n` is the value returned by the n-th `time.time()` call;
* `hashEq i` tells whether the md5 digests of source and destination
  compare equal for file index `i` (line 595) — digest inequality is
  environment-driven corruption, outside the program text.

Per-file I/O exceptions (the `except` at line 611) are not modeled: runs
of the model assume the chunk reads/writes and `copystat` succeed, which
is the regime all the claims below quantify over. -/

/-- Destination directory contents: maps a flattened file name to the
byte size currently on disk, `none` when absent. -/
def DestFs : Type := String → Option ℕ

/-- Create/truncate or grow a destination file (open "wb" / chunk write). -/
def DestFs.write (fs : DestFs) (name : String) (size : ℕ) : DestFs :=
  fun n => if n = name then some size else fs n

/-- `dst.unlink(missing_ok=True)` (app.py line 582). -/
def DestFs.remove (fs : DestFs) (name : String) : DestFs :=
  fun n => if n = name then none else fs n

/-- The environment of one worker run (see the section comment). -/
structure Oracles where
  cancelAt : Option ℕ
  clock : ℕ → ℚ
  hashEq : ℕ → Bool

/-- Value of the `cancel_requested` flag at its `r`-th read. -/
def cancelFlag (o : Oracles) (r : ℕ) : Bool :=
  match o.cancelAt with
  | none => false
  | some k => decide (k ≤ r)

/-- The process-global mutable state the worker touches. -/
structure World where
  ts : TransferState
  tracker : SpeedTracker
  dest : DestFs

/-- `Path(name).name`: the final path component (app.py line 528 flattens
the copied file to its bare file name under the destination root). -/
def baseName (name : String) : String :=
  (pathSegs name).getLastD name

/-- Number of CHUNK_SIZE-sized reads needed for `size` bytes. -/
def numChunks (size : ℕ) : ℕ :=
  (size + CHUNK_SIZE - 1) / CHUNK_SIZE

/-- `file_map = {f["name"]: f for f in drive_state["files"]}` — a dict
comprehension where a later duplicate name overwrites an earlier one —
followed by `to_copy = [file_map[n] for n in selected if n in file_map]`
(app.py lines 497-498). -/
def resolveSelection (selected : List String) (files : List FileInfo) :
    List FileInfo :=
  selected.filterMap fun n => files.reverse.find? (fun f => f.name = n)

/-- The destination display string (app.py lines 491-494). -/
def destString (cfg : Config) : String :=
  let ip := if cfg.use_tailscale then cfg.nas_ip else cfg.nas_ip_local
  "//" ++ ip ++ "/" ++ cfg.share_name ++
    (if cfg.subfolder ≠ "" then "/" ++ cfg.subfolder else "")

/-- Result of the per-file chunk loop. -/
structure LoopRes where
  w : World
  fileDone : ℕ
  r : ℕ
  c : ℕ

/-- Result of processing one file / of the whole file loop. -/
structure StepRes where
  w : World
  r : ℕ
  c : ℕ

/-- The `while True` chunk loop (app.py lines 545-579), recursing on the
number `n` of data chunks still to read.  Each iteration reads the
cancellation flag (line 546; on `True` the loop breaks), reads and writes
one chunk (lines 548-553), updates the byte counters and percentages
(lines 552-559), and — when more than 0.3 s have passed since the last
emission (line 562) — reads the clock again inside `update_speed` and
runs `check_milestones` (lines 564-565; the `file_progress` emission at
line 567 carries no engine state).  When no data chunk remains (`n = 0`)
the final iteration reads the flag and then reads an empty chunk; either
way the loop ends having consumed one more flag read. -/
def copyLoop (o : Oracles) (cfg : Config) (totalSize : ℕ) (dstName : String)
    (size : ℕ) : ℕ → ℕ → ℚ → World → ℕ → ℕ → LoopRes
  | 0, fileDone, _, w, r, c => ⟨w, fileDone, r + 1, c⟩
  | n + 1, fileDone, lastEmit, w, r, c =>
    if cancelFlag o r then ⟨w, fileDone, r + 1, c⟩
    else
      let len := min CHUNK_SIZE (size - fileDone)
      let fileDone' := fileDone + len
      let bytes' := w.ts.bytes_done + len
      let filePct : ℚ := if size = 0 then 100 else (fileDone' : ℚ) / (size : ℚ) * 100
      let overallPct : ℚ :=
        if totalSize = 0 then 100 else (bytes' : ℚ) / (totalSize : ℚ) * 100
      let w' : World :=
        { w with
            ts := { w.ts with
                      bytes_done := bytes'
                      current_file_percent := filePct
                      overall_percent := overallPct }
            dest := w.dest.write dstName fileDone' }
      let now := o.clock c
      if (3 : ℚ)/10 < now - lastEmit then
        let upd := update_speed (o.clock (c + 1)) w'.tracker w'.ts
        let ts' := (check_milestones cfg upd.2).1
        copyLoop o cfg totalSize dstName size n fileDone' now
          { w' with tracker := upd.1, ts := ts' } (r + 1) (c + 2)
      else
        copyLoop o cfg totalSize dstName size n fileDone' lastEmit w' (r + 1) (c + 1)

/-- The body of `for i, finfo in enumerate(to_copy)` below the loop-top
cancellation check (app.py lines 527-609): set the current-file fields,
open source and destination (creating the destination file), run the
chunk loop, then re-read the cancellation flag (line 581) — unlinking the
destination file and skipping to the next file when it is set — copy the
metadata (line 586, no effect on the modeled state), optionally verify
checksums (lines 589-600), and on success record the file as completed
(lines 602-603; note the source sets `completed_files` to `i + 1` rather
than incrementing it). -/
def processFile (o : Oracles) (cfg : Config) (totalSize : ℕ) (i : ℕ)
    (f : FileInfo) (w : World) (r c : ℕ) : StepRes :=
  let dstName := baseName f.name
  let w1 : World :=
    { w with
        ts := { w.ts with
                  current_file := f.name
                  current_file_index := i
                  current_file_percent := 0 }
        dest := w.dest.write dstName 0 }
  let lr := copyLoop o cfg totalSize dstName f.size (numChunks f.size) 0 0 w1 r c
  if cancelFlag o lr.r then
    ⟨{ lr.w with dest := lr.w.dest.remove dstName }, lr.r + 1, lr.c⟩
  else
    let w2 : World :=
      if cfg.verify_checksums then
        { lr.w with ts := { lr.w.ts with current_file := "Verifying: " ++ f.name } }
      else lr.w
    if cfg.verify_checksums && !o.hashEq i then
      ⟨{ w2 with ts := { w2.ts with errors := w2.ts.errors ++ [f.name] } },
       lr.r + 1, lr.c⟩
    else
      ⟨{ w2 with
           ts := { w2.ts with
                     completed_files := i + 1
                     completed_list := w2.ts.completed_list ++ [f.name] } },
       lr.r + 1, lr.c⟩

/-- The `for i, finfo in enumerate(to_copy)` loop (app.py lines 522-615):
each iteration first reads the cancellation flag (line 523) and breaks
out of the whole loop when it is set (the `transfer_cancelled` emission
carries no engine state). -/
def runFiles (o : Oracles) (cfg : Config) (totalSize : ℕ) :
    ℕ → List FileInfo → World → ℕ → ℕ → StepRes
  | _, [], w, r, c => ⟨w, r, c⟩
  | i, f :: rest, w, r, c =>
    if cancelFlag o r then ⟨w, r + 1, c⟩
    else
      let fr := processFile o cfg totalSize i f w (r + 1) c
      runFiles o cfg totalSize (i + 1) rest fr.w fr.r fr.c

/-- Job finalization (app.py lines 617-655): clear `active`, and — unless
cancellation was requested (line 620, one more flag read) — set the
percentage to 100, mark finished, build the finish summary, and run the
final milestone check.  The history append (lines 640-653) goes to the
external history collaborator and the `transfer_complete` emission
carries the summary; neither changes the modeled state beyond
`finish_summary`. -/
def finalizeJob (o : Oracles) (cfg : Config) (nfiles totalSize : ℕ)
    (w : World) (r c : ℕ) : World :=
  let ts0 := { w.ts with active := false }
  if cancelFlag o r then { w with ts := ts0 }
  else
    let elapsed := o.clock c - ts0.started_at.getD 0
    let avg : ℚ := if 0 < elapsed then (totalSize : ℚ) / elapsed else 0
    let ts1 := { ts0 with
                   overall_percent := 100
                   finished := true
                   finish_summary := some
                     { total_files := nfiles
                       total_size := totalSize
                       errors := ts0.errors
                       duration := elapsed
                       avg_speed := avg
                       destination := ts0.destination } }
    { w with ts := (check_milestones cfg ts1).1 }

/-- The state-reset and setup prefix of `transfer_worker` (app.py lines
476-520), everything executed before the first file is copied: reset the
per-job fields listed at lines 477-485 (note `completed_files`,
`current_file`, `current_file_index`, `current_file_percent`, `speed_bps`
and `eta_seconds` are not among them), clear the speed samples, compute
the destination string and the resolved copy list with its totals, and
record milestone 0 as sent while firing the start notification (lines
508-514). -/
def jobSetup (o : Oracles) (selected : List String) (cfg : Config)
    (files : List FileInfo) (w : World) : World :=
  let L := resolveSelection selected files
  let totalSize := (L.map FileInfo.size).sum
  { w with
      ts := { w.ts with
                active := true
                cancel_requested := false
                started_at := some (o.clock 0)
                errors := []
                completed_list := []
                milestones_sent := insert (0 : ℚ) ∅
                finished := false
                finish_summary := none
                destination := destString cfg
                total_files := L.length
                total_bytes := totalSize
                bytes_done := 0
                overall_percent := 0
                file_list := L.map FileInfo.name }
      tracker := { w.tracker with samples := [] } }

/-- transfer_worker (app.py lines 470-655): setup, the file loop, then
finalization.  The first `time.time()` call (line 479) is clock index 0
and the first read of the cancellation flag (line 523) is read index 0. -/
def transfer_worker (o : Oracles) (selected : List String) (cfg : Config)
    (files : List FileInfo) (w0 : World) : World :=
  let L := resolveSelection selected files
  let totalSize := (L.map FileInfo.size).sum
  let w1 := jobSetup o selected cfg files w0
  let res := runFiles o cfg totalSize 0 L w1 0 1
  finalizeJob o cfg L.length totalSize res.w res.r res.c

/-- A sequence of milestone checks within one job: each check happens at
an updated overall percentage (exactly how the worker calls
`check_milestones` after refreshing `overall_percent`), and the
notifications of all checks are concatenated in order. -/
def runChecks (cfg : Config) : List ℚ → TransferState → TransferState × List ℚ
  | [], ts => (ts, [])
  | p :: ps, ts =>
    let step := check_milestones cfg { ts with overall_percent := p }
    let rest := runChecks cfg ps step.1
    (rest.1, step.2 ++ rest.2)

/-- Number of reads of the cancellation flag consumed by one file that is
processed without cancellation: the loop-top read (line 523), one read
per chunk-loop iteration (line 546, `numChunks size + 1` iterations
counting the final empty read), and the post-loop read (line 581). -/
def readsFor (size : ℕ) : ℕ :=
  numChunks size + 3

/-- Total cancellation-flag reads consumed by a list of files processed
without cancellation. -/
def readsList (L : List FileInfo) : ℕ :=
  (L.map fun f => readsFor f.size).sum

/-!
# Theorems

Each claim of the specification review is settled below; helper lemmas
precede the claim theorems that use them.
-/

/-- Sanity check: two samples four seconds apart carrying 50 bytes give
12.5 bytes per second and an ETA of 4 seconds for the remaining 50. -/
example :
    update_speed 10 { samples := [(6, 0)], window := 5 }
      { initialTransferState with bytes_done := 50, total_bytes := 100 } =
    ({ samples := [(6, 0), (10, 50)], window := 5 },
     { initialTransferState with
         bytes_done := 50, total_bytes := 100,
         speed_bps := 25/2, eta_seconds := 4 }) := by
  norm_num [update_speed, initialTransferState, List.filter]

/-- C10: with no Discord webhook configured, `check_milestones` returns
before touching anything: the whole transfer state — in particular the
milestone sent set — is unchanged and no notification is emitted. -/
theorem check_milestones_no_webhook_frame (cfg : Config) (ts : TransferState) :
    check_milestones { cfg with discord_webhook := "" } ts = (ts, []) := by
  simp [check_milestones]

/-- C9: the full snapshot contains the drive state, file list, history,
public configuration and transfer state, and is independent of the
`smb_password` value: two configurations differing only in the password
(both empty or both non-empty) produce identical snapshots. -/
theorem get_full_state_no_password_leak (cfg : Config) (p : String)
    (ds : DriveState) (ts : TransferState) (history : List String)
    (hp : cfg.smb_password = "" ↔ p = "") :
    get_full_state { cfg with smb_password := p } ds ts history =
        get_full_state cfg ds ts history ∧
    (get_full_state cfg ds ts history).drive = ds.drive ∧
    (get_full_state cfg ds ts history).files = ds.files ∧
    (get_full_state cfg ds ts history).history = history ∧
    (get_full_state cfg ds ts history).config = configPublic cfg ∧
    (get_full_state cfg ds ts history).transfer.active = ts.active ∧
    (get_full_state cfg ds ts history).transfer.overall_percent = ts.overall_percent ∧
    (get_full_state cfg ds ts history).transfer.completed_files = ts.completed_files ∧
    (get_full_state cfg ds ts history).transfer.finish_summary = ts.finish_summary ∧
    on_connect cfg ds ts history = get_full_state cfg ds ts history ∧
    api_status cfg ds ts history = get_full_state cfg ds ts history := by
  refine ⟨?_, rfl, rfl, rfl, rfl, rfl, rfl, rfl, rfl, rfl, rfl⟩
  have hhas : decide (p ≠ "") = decide (cfg.smb_password ≠ "") :=
    decide_eq_decide.mpr (not_congr hp.symm)
  simp [get_full_state, configPublic, hhas]

/-- C5 counterexample: the job-start reset (app.py lines 476-520) does not
reset every per-job field.  Started on a world left over from a previous
job, the state in force when the first file begins to copy still carries
the old completed-file count, current-file name and index, per-file
percentage, speed and ETA. -/
theorem jobSetup_not_full_reset :
    let stale : TransferState :=
      { initialTransferState with
          completed_files := 7, current_file := "old.mov",
          current_file_index := 4, current_file_percent := 55,
          speed_bps := 99, eta_seconds := 42 }
    let w := jobSetup ⟨none, fun _ => 0, fun _ => true⟩ ["a.mov"] DEFAULT_CONFIG
      [⟨"a.mov", 5⟩] ⟨stale, initialSpeedTracker, fun _ => none⟩
    w.ts.completed_files = 7 ∧ w.ts.current_file = "old.mov" ∧
    w.ts.current_file_index = 4 ∧ w.ts.current_file_percent = 55 ∧
    w.ts.speed_bps = 99 ∧ w.ts.eta_seconds = 42 := by
  refine ⟨rfl, rfl, rfl, rfl, rfl, rfl⟩

/-- C5 (amended): at job start, before the first file is copied, the
worker resets `active`, `cancel_requested`, `started_at`, `errors`,
`completed_list`, `finished`, `finish_summary`, the speed samples,
`bytes_done` and `overall_percent`, recomputes the destination, totals
and file list, and sets the milestone sent set to `{0}` (cleared and then
marked with the start notification); but it does NOT reset
`completed_files`, `current_file`, `current_file_index`,
`current_file_percent`, `speed_bps` or `eta_seconds`, which keep whatever
the previous job left until the new job overwrites them. -/
theorem jobSetup_resets (o : Oracles) (selected : List String) (cfg : Config)
    (files : List FileInfo) (w : World) :
    (jobSetup o selected cfg files w).ts.active = true ∧
    (jobSetup o selected cfg files w).ts.cancel_requested = false ∧
    (jobSetup o selected cfg files w).ts.started_at = some (o.clock 0) ∧
    (jobSetup o selected cfg files w).ts.errors = [] ∧
    (jobSetup o selected cfg files w).ts.completed_list = [] ∧
    (jobSetup o selected cfg files w).ts.milestones_sent = insert (0 : ℚ) ∅ ∧
    (jobSetup o selected cfg files w).ts.finished = false ∧
    (jobSetup o selected cfg files w).ts.finish_summary = none ∧
    (jobSetup o selected cfg files w).tracker.samples = [] ∧
    (jobSetup o selected cfg files w).ts.bytes_done = 0 ∧
    (jobSetup o selected cfg files w).ts.overall_percent = 0 ∧
    (jobSetup o selected cfg files w).ts.total_files =
      (resolveSelection selected files).length ∧
    (jobSetup o selected cfg files w).ts.completed_files = w.ts.completed_files ∧
    (jobSetup o selected cfg files w).ts.current_file = w.ts.current_file ∧
    (jobSetup o selected cfg files w).ts.current_file_index = w.ts.current_file_index ∧
    (jobSetup o selected cfg files w).ts.current_file_percent = w.ts.current_file_percent ∧
    (jobSetup o selected cfg files w).ts.speed_bps = w.ts.speed_bps ∧
    (jobSetup o selected cfg files w).ts.eta_seconds = w.ts.eta_seconds := by
  refine ⟨rfl, rfl, rfl, rfl, rfl, rfl, rfl, rfl, rfl, rfl, rfl, rfl, rfl,
    rfl, rfl, rfl, rfl, rfl⟩

/-- C4 counterexample: with a job inactive, both endpoints mounted, and a
non-empty selection none of whose names resolves against the current file
list, `on_start_transfer` does not reject — it spawns a worker — even
though the resolved copy list is empty; the spawned job then runs over
zero files and finishes with a zero-file summary instead of being
rejected. -/
theorem on_start_transfer_unresolved_selection_spawns :
    let ds : DriveState := ⟨none, true, true, [⟨"real.mov", 5⟩]⟩
    let res := on_start_transfer DEFAULT_CONFIG ds initialTransferState ["ghost.mov"]
    res.1 = .spawned ["ghost.mov"] DEFAULT_CONFIG ∧
    resolveSelection ["ghost.mov"] ds.files = [] ∧
    (transfer_worker ⟨none, fun _ => 0, fun _ => true⟩ ["ghost.mov"] DEFAULT_CONFIG
        ds.files ⟨initialTransferState, initialSpeedTracker, fun _ => none⟩).ts.finished
      = true ∧
    (transfer_worker ⟨none, fun _ => 0, fun _ => true⟩ ["ghost.mov"] DEFAULT_CONFIG
        ds.files ⟨initialTransferState, initialSpeedTracker, fun _ => none⟩).ts.total_files
      = 0 := by
  refine ⟨rfl, rfl, ?_, ?_⟩ <;>
    norm_num [transfer_worker, runFiles, finalizeJob, jobSetup, resolveSelection,
      cancelFlag, check_milestones, destString, DEFAULT_CONFIG, initialTransferState,
      List.find?, show decide ("real.mov" = "ghost.mov") = false from rfl]

/-- C4 (amended): the start handler checks, in order, that no job is
active, that the USB drive is mounted, that the NAS is mounted, and that
the raw selected list is non-empty; each violation is rejected
synchronously with a descriptive reason and no state mutation.  The
emptiness check happens before names are resolved against the current
file list, so a selection whose names all fail to resolve is not
rejected: the worker is spawned and drops the unknown names itself. -/
theorem on_start_transfer_preconditions (cfg : Config) (ds : DriveState)
    (ts : TransferState) (data : List String) :
    (ts.active = true →
      on_start_transfer cfg ds ts data = (.rejected "Transfer already in progress", ts)) ∧
    (ts.active = false → ds.drive_mounted = false →
      on_start_transfer cfg ds ts data = (.rejected "No USB drive connected", ts)) ∧
    (ts.active = false → ds.drive_mounted = true → ds.nas_mounted = false →
      on_start_transfer cfg ds ts data = (.rejected "NAS not connected", ts)) ∧
    (ts.active = false → ds.drive_mounted = true → ds.nas_mounted = true →
      data = [] →
      on_start_transfer cfg ds ts data = (.rejected "No files selected", ts)) ∧
    (ts.active = false → ds.drive_mounted = true → ds.nas_mounted = true →
      data ≠ [] →
      on_start_transfer cfg ds ts data =
        (.spawned data cfg, { ts with finished := false, finish_summary := none })) := by
  refine ⟨fun h => ?_, fun h h2 => ?_, fun h h2 h3 => ?_,
    fun h h2 h3 h4 => ?_, fun h h2 h3 h4 => ?_⟩ <;>
    simp [on_start_transfer, h, *]

/-- C4 witness: a start request while a job is active is rejected with
the in-progress message and the state is untouched. -/
theorem on_start_transfer_preconditions_witness :
    on_start_transfer DEFAULT_CONFIG ⟨none, true, true, []⟩
        { initialTransferState with active := true } ["x.mov"] =
      (.rejected "Transfer already in progress",
       { initialTransferState with active := true }) :=
  (on_start_transfer_preconditions DEFAULT_CONFIG ⟨none, true, true, []⟩
    { initialTransferState with active := true } ["x.mov"]).1 rfl

/-- C9 witness: instantiated at two concrete non-empty passwords. -/
theorem get_full_state_no_password_leak_witness :
    get_full_state { DEFAULT_CONFIG with smb_password := "hunter2" }
        ⟨none, false, false, []⟩ initialTransferState [] =
      get_full_state { DEFAULT_CONFIG with smb_password := "swordfish" }
        ⟨none, false, false, []⟩ initialTransferState [] :=
  (get_full_state_no_password_leak
    { DEFAULT_CONFIG with smb_password := "swordfish" } "hunter2"
    ⟨none, false, false, []⟩ initialTransferState [] (by simp)).1

/-- Unfolding lemma: the scan loop appends, to its accumulator, the kept
entries of the longest prefix that contains no aborting entry. -/
theorem scanLoop_eq : ∀ (l : List FsEntry) (acc : List ScanEntry),
    scanLoop l acc = acc ++ (l.takeWhile fun e => !scanAborts e).filterMap scanKeeps := by
  intro l
  induction l with
  | nil => intro acc; simp [scanLoop]
  | cons e rest ih =>
    intro acc
    by_cases hh : hiddenPath e.path
    · simp [scanLoop, hh, scanAborts, scanKeeps, List.takeWhile_cons,
        List.filterMap_cons, ih]
    · by_cases hf : e.isFile
      · by_cases hr : e.readable
        · by_cases hs : e.size < MIN_FILE_SIZE
          · have hs' : ¬ MIN_FILE_SIZE ≤ e.size := by omega
            simp [scanLoop, hh, hf, hr, hs, hs', scanAborts, scanKeeps,
              List.takeWhile_cons, List.filterMap_cons, ih]
          · have hs' : MIN_FILE_SIZE ≤ e.size := by omega
            simp [scanLoop, hh, hf, hr, hs, hs', scanAborts, scanKeeps,
              List.takeWhile_cons, List.filterMap_cons, ih]
        · simp [scanLoop, hh, hf, hr, scanAborts, scanKeeps,
            List.takeWhile_cons, List.filterMap_cons]
      · simp [scanLoop, hh, hf, scanAborts, scanKeeps,
          List.takeWhile_cons, List.filterMap_cons, ih]

/-- The names of the kept entries form a sublist of the paths walked. -/
theorem filterMap_scanKeeps_names_sublist : ∀ l : List FsEntry,
    ((l.filterMap scanKeeps).map ScanEntry.name).Sublist (l.map FsEntry.path) := by
  intro l
  induction l with
  | nil => simp
  | cons e rest ih =>
    by_cases hc : (!hiddenPath e.path && e.isFile && e.readable &&
        decide (MIN_FILE_SIZE ≤ e.size)) = true
    · simpa [List.filterMap_cons, scanKeeps, hc] using ih.cons₂ e.path
    · simpa [List.filterMap_cons, scanKeeps, hc] using ih.cons e.path

/-- C7 (amended): `scan_files` walks the path-sorted enumeration and never
raises; its result lists exactly the qualifying entries — non-hidden
readable regular files of at least the 1 MiB floor — of the longest
sorted prefix containing no unreadable qualifying entry, in path order.
When every non-hidden regular file is readable this is the full sorted
qualifying list; an unreadable entry, however, ends the scan early, so
readable entries sorting after it are dropped. -/
theorem scan_files_characterization (l : List FsEntry) :
    scan_files l =
      ((l.insertionSort pathLe).takeWhile fun e => !scanAborts e).filterMap scanKeeps ∧
    ((scan_files l).map ScanEntry.name).Pairwise strLe ∧
    (∀ s ∈ scan_files l, ∃ e, e ∈ l ∧ e.isFile = true ∧ e.readable = true ∧
       hiddenPath e.path = false ∧ MIN_FILE_SIZE ≤ e.size ∧
       s = { name := e.path, size := e.size }) ∧
    ((∀ e ∈ l, scanAborts e = false) →
       scan_files l = (l.insertionSort pathLe).filterMap scanKeeps) := by
  have heq : scan_files l =
      ((l.insertionSort pathLe).takeWhile fun e => !scanAborts e).filterMap scanKeeps := by
    simpa [scan_files] using scanLoop_eq (l.insertionSort pathLe) []
  refine ⟨heq, ?_, ?_, ?_⟩
  · have hsorted : (l.insertionSort pathLe).Pairwise pathLe :=
      List.sorted_insertionSort pathLe l
    have hmap : ((l.insertionSort pathLe).map FsEntry.path).Pairwise strLe :=
      hsorted.map FsEntry.path (fun _ _ h => h)
    have hsub : ((scan_files l).map ScanEntry.name).Sublist
        ((l.insertionSort pathLe).map FsEntry.path) := by
      rw [heq]
      exact (filterMap_scanKeeps_names_sublist _).trans
        ((List.takeWhile_sublist _).map FsEntry.path)
    exact hmap.sublist hsub
  · intro s hs
    rw [heq] at hs
    rcases List.mem_filterMap.mp hs with ⟨e, he, hkeep⟩
    have hel : e ∈ l := by
      have h1 : e ∈ l.insertionSort pathLe := (List.takeWhile_sublist _).mem he
      exact (List.perm_insertionSort pathLe l).mem_iff.mp h1
    unfold scanKeeps at hkeep
    by_cases hc : (!hiddenPath e.path && e.isFile && e.readable &&
        decide (MIN_FILE_SIZE ≤ e.size)) = true
    · rw [if_pos hc] at hkeep
      simp only [Bool.and_eq_true, Bool.not_eq_true', decide_eq_true_eq] at hc
      exact ⟨e, hel, hc.1.1.2, hc.1.2, hc.1.1.1, hc.2, (Option.some.inj hkeep).symm⟩
    · rw [if_neg hc] at hkeep
      cases hkeep
  · intro hall
    rw [heq, List.takeWhile_eq_self_iff.mpr]
    intro e he
    have : e ∈ l := (List.perm_insertionSort pathLe l).mem_iff.mp he
    simp [hall e this]

/-- C7 counterexample: in a flat directory of three qualifying 2 MiB
files where only the middle one (in path order) is unreadable, the scan
returns just the first file: the third, although readable and
qualifying, is dropped because the unreadable entry aborts the walk —
contradicting the claim that all remaining readable qualifying entries
are still returned. -/
theorem scan_files_drops_after_unreadable :
    scan_files [⟨"a.mov", true, 2097152, true⟩, ⟨"b.mov", true, 2097152, false⟩,
        ⟨"c.mov", true, 2097152, true⟩] = [⟨"a.mov", 2097152⟩] ∧
    (⟨"c.mov", true, 2097152, true⟩ : FsEntry) ∈
      [(⟨"a.mov", true, 2097152, true⟩ : FsEntry), ⟨"b.mov", true, 2097152, false⟩,
        ⟨"c.mov", true, 2097152, true⟩] ∧
    hiddenPath "c.mov" = false ∧ MIN_FILE_SIZE ≤ 2097152 ∧
    ∀ s ∈ scan_files [(⟨"a.mov", true, 2097152, true⟩ : FsEntry),
        ⟨"b.mov", true, 2097152, false⟩, ⟨"c.mov", true, 2097152, true⟩],
      s.name ≠ "c.mov" := by
  decide

/-- C8: the code comment (app.py lines 288-289) and the claim say that
devices reporting a model but no transport are accepted, yet the lsblk
branch skips every device whose `tran` is not exactly "usb", and the
by-id fallback (which only ever fires when the primary scan found
nothing) contributes nothing here — so a USB-C adapter presenting itself
with model "SanDisk Adapter" and empty transport is not detected.  Tool
failure on both probes yields an empty list rather than an exception. -/
theorem find_usb_drives_drops_model_only_device :
    find_usb_drives (some [⟨⟨"sda", some "512G", "disk", some "exfat", none⟩, none,
        some "SanDisk Adapter", []⟩]) (some []) = [] ∧
    (⟨⟨"sda", some "512G", "disk", some "exfat", none⟩, none,
        some "SanDisk Adapter", []⟩ : LsblkDev).tran = none ∧
    (⟨⟨"sda", some "512G", "disk", some "exfat", none⟩, none,
        some "SanDisk Adapter", []⟩ : LsblkDev).model = some "SanDisk Adapter" ∧
    find_usb_drives none none = [] ∧
    find_usb_drives (some [⟨⟨"sdb1", some "512G", "part", some "exfat", none⟩,
        some "usb", some "Samsung T7", []⟩]) (some []) =
      [{ device := "/dev/sdb1", size := "512G", model := "Samsung T7",
         fstype := "exfat", mountpoint := none }] := by
  decide

theorem milestoneLoop_eq (pct : ℚ) :
    ∀ (ms : List ℚ) (sent : Finset ℚ), ms.Nodup →
      milestoneLoop pct ms sent =
        (sent ∪ (ms.filter fun m => decide (m ≤ pct)).toFinset,
         ms.filter fun m => decide (m ≤ pct) && decide (m ∉ sent)) := by
  intro ms
  induction ms with
  | nil => intro sent _; simp [milestoneLoop]
  | cons m ms ih =>
    intro sent hnd
    rcases List.nodup_cons.mp hnd with ⟨hm, hnd'⟩
    by_cases h1 : m ≤ pct
    · by_cases h2 : m ∈ sent
      · rw [milestoneLoop, if_neg (by tauto), ih sent hnd']
        refine Prod.ext ?_ ?_
        · simp only [List.filter_cons, decide_eq_true_eq, if_pos h1]
          simp [List.toFinset_cons, Finset.union_insert, Finset.insert_eq_self.mpr,
            Finset.mem_union, h2]
        · simp only [List.filter_cons]
          rw [if_neg (by simp [h2])]
      · rw [milestoneLoop, if_pos (And.intro h1 h2), ih (insert m sent) hnd']
        refine Prod.ext ?_ ?_
        · simp only [List.filter_cons, decide_eq_true_eq, if_pos h1]
          simp only [List.toFinset_cons]
          rw [Finset.insert_union, Finset.union_insert]
        · simp only [List.filter_cons]
          rw [if_pos (by simp [h1, h2])]
          congr 1
          apply List.filter_congr
          intro x hx
          have hxm : x ≠ m := fun h => hm (h ▸ hx)
          simp [Finset.mem_insert, hxm]
    · rw [milestoneLoop, if_neg (by tauto), ih sent hnd']
      refine Prod.ext ?_ ?_
      · simp only [List.filter_cons, decide_eq_true_eq, if_neg h1]
      · simp only [List.filter_cons]
        rw [if_neg (by simp [h1])]

theorem runChecks_sent_count (cfg : Config) (hweb : cfg.discord_webhook ≠ "")
    (hnd : cfg.discord_notify_milestones.Nodup) :
    ∀ (ps : List ℚ) (ts : TransferState),
      ((runChecks cfg ps ts).1.milestones_sent =
        ts.milestones_sent ∪
          (cfg.discord_notify_milestones.filter
            fun m => decide (∃ p ∈ ps, m ≤ p)).toFinset) ∧
      ∀ x : ℚ, (runChecks cfg ps ts).2.count x =
        if x ∈ cfg.discord_notify_milestones ∧ x ∉ ts.milestones_sent ∧
            (∃ p ∈ ps, x ≤ p) then 1 else 0 := by
  intro ps
  induction ps with
  | nil =>
    intro ts
    refine ⟨by simp [runChecks], fun x => by simp [runChecks]⟩
  | cons p ps ih =>
    intro ts
    have hstep1 : (check_milestones cfg { ts with overall_percent := p }).1.milestones_sent =
        ts.milestones_sent ∪
          (cfg.discord_notify_milestones.filter fun m => decide (m ≤ p)).toFinset := by
      unfold check_milestones
      rw [if_neg hweb, milestoneLoop_eq p _ _ hnd]
    have hstep2 : (check_milestones cfg { ts with overall_percent := p }).2 =
        cfg.discord_notify_milestones.filter
          (fun m => decide (m ≤ p) && decide (m ∉ ts.milestones_sent)) := by
      unfold check_milestones
      rw [if_neg hweb, milestoneLoop_eq p _ _ hnd]
    have hrun : runChecks cfg (p :: ps) ts =
        ((runChecks cfg ps (check_milestones cfg { ts with overall_percent := p }).1).1,
         (check_milestones cfg { ts with overall_percent := p }).2 ++
           (runChecks cfg ps (check_milestones cfg { ts with overall_percent := p }).1).2) := by
      simp [runChecks]
    obtain ⟨ihs, ihc⟩ := ih (check_milestones cfg { ts with overall_percent := p }).1
    constructor
    · rw [hrun]
      simp only at ihs ⊢
      rw [ihs, hstep1]
      ext x
      simp only [Finset.mem_union, List.mem_toFinset, List.mem_filter,
        decide_eq_true_eq, List.mem_cons]
      constructor
      · rintro ((hx | ⟨hxm, hxp⟩) | ⟨hxm, hq, hqm, hle⟩)
        · exact Or.inl hx
        · exact Or.inr ⟨hxm, p, Or.inl rfl, hxp⟩
        · exact Or.inr ⟨hxm, hq, Or.inr hqm, hle⟩
      · rintro (hx | ⟨hxm, q, hq | hq, hle⟩)
        · exact Or.inl (Or.inl hx)
        · exact Or.inl (Or.inr ⟨hxm, hq ▸ hle⟩)
        · exact Or.inr ⟨hxm, q, hq, hle⟩
    · intro x
      rw [hrun]
      simp only [List.count_append]
      rw [ihc x, hstep2, hstep1]
      have hcnt : (cfg.discord_notify_milestones.filter
          fun m => decide (m ≤ p) && decide (m ∉ ts.milestones_sent)).count x =
          if x ∈ cfg.discord_notify_milestones ∧ x ≤ p ∧ x ∉ ts.milestones_sent
          then 1 else 0 := by
        by_cases hx : x ∈ cfg.discord_notify_milestones ∧ x ≤ p ∧
            x ∉ ts.milestones_sent
        · rw [if_pos hx]
          refine List.count_eq_one_of_mem (hnd.filter _) ?_
          simp only [List.mem_filter, Bool.and_eq_true, decide_eq_true_eq]
          exact ⟨hx.1, hx.2.1, hx.2.2⟩
        · rw [if_neg hx]
          refine List.count_eq_zero_of_not_mem ?_
          simp only [List.mem_filter, Bool.and_eq_true, decide_eq_true_eq]
          tauto
      rw [hcnt]
      by_cases hms : x ∈ cfg.discord_notify_milestones <;>
        by_cases hsent : x ∈ ts.milestones_sent <;>
        by_cases hxp : x ≤ p <;>
        by_cases hex : ∃ q ∈ ps, x ≤ q <;>
        simp [hms, hsent, hxp, hex, Finset.mem_union, List.mem_filter]

theorem runChecks_mem (cfg : Config) (hweb : cfg.discord_webhook ≠ "")
    (hnd : cfg.discord_notify_milestones.Nodup) (ps : List ℚ) (ts : TransferState)
    (x : ℚ) (hx : x ∈ (runChecks cfg ps ts).2) :
    x ∈ cfg.discord_notify_milestones ∧ x ∉ ts.milestones_sent ∧ ∃ p ∈ ps, x ≤ p := by
  have h := (runChecks_sent_count cfg hweb hnd ps ts).2 x
  by_cases hc : x ∈ cfg.discord_notify_milestones ∧ x ∉ ts.milestones_sent ∧
      ∃ p ∈ ps, x ≤ p
  · exact hc
  · rw [if_neg hc] at h
    have := List.count_pos_iff.mpr hx
    omega

theorem runChecks_sorted (cfg : Config) (hweb : cfg.discord_webhook ≠ "")
    (hms : cfg.discord_notify_milestones.Sorted (· < ·)) :
    ∀ (ps : List ℚ) (ts : TransferState), (runChecks cfg ps ts).2.Sorted (· < ·) := by
  have hnd : cfg.discord_notify_milestones.Nodup := hms.imp ne_of_lt
  intro ps
  induction ps with
  | nil => intro ts; simp [runChecks]
  | cons p ps ih =>
    intro ts
    have hstep1 : (check_milestones cfg { ts with overall_percent := p }).1.milestones_sent =
        ts.milestones_sent ∪
          (cfg.discord_notify_milestones.filter fun m => decide (m ≤ p)).toFinset := by
      unfold check_milestones
      rw [if_neg hweb, milestoneLoop_eq p _ _ hnd]
    have hstep2 : (check_milestones cfg { ts with overall_percent := p }).2 =
        cfg.discord_notify_milestones.filter
          (fun m => decide (m ≤ p) && decide (m ∉ ts.milestones_sent)) := by
      unfold check_milestones
      rw [if_neg hweb, milestoneLoop_eq p _ _ hnd]
    have hrun : (runChecks cfg (p :: ps) ts).2 =
        (check_milestones cfg { ts with overall_percent := p }).2 ++
          (runChecks cfg ps (check_milestones cfg { ts with overall_percent := p }).1).2 := by
      simp [runChecks]
    rw [hrun]
    refine List.pairwise_append.mpr ⟨?_, ih _, ?_⟩
    · rw [hstep2]
      exact hms.filter _
    · intro a ha b hb
      rw [hstep2] at ha
      obtain ⟨ham, hapred⟩ := List.mem_filter.mp ha
      simp only [Bool.and_eq_true, decide_eq_true_eq] at hapred
      have hb' := runChecks_mem cfg hweb hnd ps _ b hb
      rw [hstep1] at hb'
      have hbp : ¬ b ≤ p := by
        intro hble
        exact hb'.2.1 (Finset.mem_union_right _ (List.mem_toFinset.mpr
          (List.mem_filter.mpr ⟨hb'.1, by simp [hble]⟩)))
      calc a ≤ p := hapred.1
        _ < b := lt_of_not_le hbp

theorem sorted_le_getLast : ∀ (l : List ℚ), l.Sorted (· ≤ ·) →
    ∀ (h : l ≠ []) (p : ℚ), p ∈ l → p ≤ l.getLast h := by
  intro l
  induction l with
  | nil => intro _ h; simp at h
  | cons a t ih =>
    intro hs h p hp
    cases t with
    | nil =>
      rcases List.mem_cons.mp hp with rfl | hp'
      · simp [List.getLast]
      · simp at hp'
    | cons b t' =>
      rw [List.getLast_cons (List.cons_ne_nil b t')]
      rcases List.mem_cons.mp hp with rfl | hp'
      · have hhead := List.rel_of_sorted_cons hs
        exact hhead _ (List.getLast_mem (List.cons_ne_nil b t'))
      · exact ih (List.Sorted.of_cons hs) (List.cons_ne_nil b t') p hp'

/-- C2: within one job — starting from an empty sent set — for a
configured strictly ascending threshold list and any sequence of
milestone checks at non-decreasing percentages (with a webhook
configured), the notified thresholds are strictly ascending overall (so
each is notified at most once, in ascending order, even across checks
and even if the checker runs twice at the same percentage), and a
threshold is notified exactly once when it is at or below the final
percentage and never when it is above it. -/
theorem milestones_notified_once_ascending (cfg : Config)
    (hweb : cfg.discord_webhook ≠ "")
    (hms : cfg.discord_notify_milestones.Sorted (· < ·))
    (pcts : List ℚ) (hne : pcts ≠ []) (hps : pcts.Sorted (· ≤ ·))
    (ts : TransferState) (hsent : ts.milestones_sent = ∅) :
    (runChecks cfg pcts ts).2.Sorted (· < ·) ∧
    ∀ m ∈ cfg.discord_notify_milestones,
      (m ≤ pcts.getLast hne → (runChecks cfg pcts ts).2.count m = 1) ∧
      (pcts.getLast hne < m → (runChecks cfg pcts ts).2.count m = 0) := by
  have hnd : cfg.discord_notify_milestones.Nodup := hms.imp ne_of_lt
  refine ⟨runChecks_sorted cfg hweb hms pcts ts, fun m hm => ⟨?_, ?_⟩⟩
  · intro hle
    have h := (runChecks_sent_count cfg hweb hnd pcts ts).2 m
    rw [if_pos ⟨hm, by simp [hsent],
      ⟨pcts.getLast hne, List.getLast_mem hne, hle⟩⟩] at h
    exact h
  · intro hgt
    have h := (runChecks_sent_count cfg hweb hnd pcts ts).2 m
    rw [if_neg ?_] at h
    · exact h
    · rintro ⟨-, -, q, hq, hmq⟩
      exact absurd (hmq.trans (sorted_le_getLast pcts hps hne q hq)) (not_le.mpr hgt)

/-- C2 witness: thresholds 25/50/75/100, percentage checks at
0, 30, 30 (repeated), 60, 100: the run emits an ascending notification
list and each threshold exactly once. -/
theorem milestones_notified_once_ascending_witness :
    (runChecks { DEFAULT_CONFIG with discord_webhook := "https://example.invalid/h" }
      [0, 30, 30, 60, 100] initialTransferState).2.Sorted (· < ·) ∧
    (runChecks { DEFAULT_CONFIG with discord_webhook := "https://example.invalid/h" }
      [0, 30, 30, 60, 100] initialTransferState).2.count 25 = 1 ∧
    (runChecks { DEFAULT_CONFIG with discord_webhook := "https://example.invalid/h" }
      [0, 30, 30, 60, 100] initialTransferState).2.count 100 = 1 := by
  have h := milestones_notified_once_ascending
    { DEFAULT_CONFIG with discord_webhook := "https://example.invalid/h" }
    (by decide) (by decide) [0, 30, 30, 60, 100] (by decide) (by decide)
    initialTransferState rfl
  refine ⟨h.1, ?_, ?_⟩
  · exact ((h.2 25 (by decide)).1 (by decide))
  · exact ((h.2 100 (by decide)).1 (by decide))

/-- C6: after appending the new sample and pruning the trailing window,
(a) when fewer than two samples remain, the whole transfer state — in
particular speed and ETA — keeps its previous values; (b) when at least
two samples remain and time has advanced past the oldest retained sample
`(t0, b0)`, the reported speed is exactly (bytes_done − b0)/(now − t0),
and the ETA is the remaining bytes divided by that speed when it is
positive, while a zero (or negative) speed yields the sentinel ETA 0
without any division; (c) the snapshot renders the sentinel ETA 0 as the
empty `eta_human` string, i.e. as indeterminate, never as a quotient. -/
theorem update_speed_spec (now : ℚ) (tr : SpeedTracker) (ts : TransferState) :
    ((update_speed now tr ts).1.samples =
      (tr.samples ++ [(now, ts.bytes_done)]).filter
        fun s => decide (now - tr.window ≤ s.1)) ∧
    ((update_speed now tr ts).1.samples.length < 2 →
      (update_speed now tr ts).2 = ts) ∧
    (∀ t0 b0 rest,
      (update_speed now tr ts).1.samples = (t0, b0) :: rest →
      rest ≠ [] → t0 < now →
      (update_speed now tr ts).2.speed_bps =
          ((ts.bytes_done : ℚ) - (b0 : ℚ)) / (now - t0) ∧
      (0 < (update_speed now tr ts).2.speed_bps →
        (update_speed now tr ts).2.eta_seconds =
          ((ts.total_bytes : ℚ) - (ts.bytes_done : ℚ)) /
            (update_speed now tr ts).2.speed_bps) ∧
      ((update_speed now tr ts).2.speed_bps ≤ 0 →
        (update_speed now tr ts).2.eta_seconds = 0)) ∧
    (∀ (cfg : Config) (ds : DriveState) (hist : List String)
        (ts' : TransferState), ts'.eta_seconds = 0 →
      (get_full_state cfg ds ts' hist).transfer.eta_human = "") := by
  refine ⟨?_, ?_, ?_, ?_⟩
  · simp only [update_speed]
    split_ifs <;> rfl
  · intro hlen
    have hsam : (update_speed now tr ts).1.samples =
        (tr.samples ++ [(now, ts.bytes_done)]).filter
          fun s => decide (now - tr.window ≤ s.1) := by
      simp only [update_speed]; split_ifs <;> rfl
    rw [hsam] at hlen
    simp only [update_speed]
    split_ifs <;> first | rfl | omega
  · intro t0 b0 rest hsam hrest ht0
    have hsam' : ((tr.samples ++ [(now, ts.bytes_done)]).filter
        fun s => decide (now - tr.window ≤ s.1)) = (t0, b0) :: rest := by
      rw [← hsam]
      simp only [update_speed]; split_ifs <;> rfl
    have hlen : 2 ≤ ((tr.samples ++ [(now, ts.bytes_done)]).filter
        fun s => decide (now - tr.window ≤ s.1)).length := by
      rw [hsam']
      cases rest with
      | nil => exact absurd rfl hrest
      | cons x xs => simp
    have hdt : 0 < now - (((tr.samples ++ [(now, ts.bytes_done)]).filter
        (fun s => decide (now - tr.window ≤ s.1))).headD (now, ts.bytes_done)).1 := by
      rw [hsam']
      simpa using ht0
    have hbps : (update_speed now tr ts).2.speed_bps =
        ((ts.bytes_done : ℚ) - (b0 : ℚ)) / (now - t0) := by
      simp only [update_speed]
      rw [if_pos hlen, if_pos hdt]
      rw [hsam']
      simp
    have heta : (update_speed now tr ts).2.eta_seconds =
        if 0 < ((ts.bytes_done : ℚ) - (b0 : ℚ)) / (now - t0) then
          ((ts.total_bytes : ℚ) - (ts.bytes_done : ℚ)) /
            (((ts.bytes_done : ℚ) - (b0 : ℚ)) / (now - t0))
        else 0 := by
      simp only [update_speed]
      rw [if_pos hlen, if_pos hdt]
      rw [hsam']
      simp
    refine ⟨hbps, ?_, ?_⟩
    · intro hpos
      rw [hbps] at hpos
      rw [heta, if_pos hpos, hbps]
    · intro hneg
      rw [hbps] at hneg
      rw [heta, if_neg (not_lt.mpr hneg)]
  · intro cfg ds hist ts' hz
    simp [get_full_state, hz]

/-- C6 witness: two samples spanning 4 seconds and 50 bytes yield speed
(50 − 0)/(10 − 6). -/
theorem update_speed_spec_witness :
    (update_speed 10 { samples := [(6, 0)], window := 5 }
      { initialTransferState with bytes_done := 50, total_bytes := 100 }).2.speed_bps =
      (((50 : ℕ) : ℚ) - ((0 : ℕ) : ℚ)) / (10 - 6) := by
  have hsameq : (update_speed 10 { samples := [(6, 0)], window := 5 }
      { initialTransferState with bytes_done := 50, total_bytes := 100 }).1.samples =
      (6, 0) :: [(10, 50)] := by
    norm_num [update_speed, initialTransferState, List.filter]
  exact ((update_speed_spec 10 { samples := [(6, 0)], window := 5 }
    { initialTransferState with bytes_done := 50, total_bytes := 100 }).2.2.1
    6 0 [(10, 50)] hsameq (by decide) (by norm_num)).1

set_option maxHeartbeats 2000000 in
/-- C3 (code bug at app.py line 602): in a three-file job with checksum
verification enabled where file 2 fails verification, the job completes
with `completed_list = [file1, file3]` (2 entries) but
`completed_files = 3`, because the source assigns `completed_files = i + 1`
instead of incrementing it: a file recorded as an error still bumps the
completed count when a later file succeeds, so the count diverges from
the completed list (the claim — and spec §4.3 step 7 — requires 2). -/
theorem completed_count_diverges_from_completed_list :
    (transfer_worker ⟨none, fun _ => 0, fun i => decide (i ≠ 1)⟩
        ["a.mov", "b.mov", "c.mov"] { DEFAULT_CONFIG with verify_checksums := true }
        [⟨"a.mov", 1⟩, ⟨"b.mov", 1⟩, ⟨"c.mov", 1⟩]
        ⟨initialTransferState, initialSpeedTracker, fun _ => none⟩).ts.completed_files
      = 3 ∧
    (transfer_worker ⟨none, fun _ => 0, fun i => decide (i ≠ 1)⟩
        ["a.mov", "b.mov", "c.mov"] { DEFAULT_CONFIG with verify_checksums := true }
        [⟨"a.mov", 1⟩, ⟨"b.mov", 1⟩, ⟨"c.mov", 1⟩]
        ⟨initialTransferState, initialSpeedTracker, fun _ => none⟩).ts.completed_list
      = ["a.mov", "c.mov"] ∧
    (transfer_worker ⟨none, fun _ => 0, fun i => decide (i ≠ 1)⟩
        ["a.mov", "b.mov", "c.mov"] { DEFAULT_CONFIG with verify_checksums := true }
        [⟨"a.mov", 1⟩, ⟨"b.mov", 1⟩, ⟨"c.mov", 1⟩]
        ⟨initialTransferState, initialSpeedTracker, fun _ => none⟩).ts.errors
      = ["b.mov"] ∧
    (transfer_worker ⟨none, fun _ => 0, fun i => decide (i ≠ 1)⟩
        ["a.mov", "b.mov", "c.mov"] { DEFAULT_CONFIG with verify_checksums := true }
        [⟨"a.mov", 1⟩, ⟨"b.mov", 1⟩, ⟨"c.mov", 1⟩]
        ⟨initialTransferState, initialSpeedTracker, fun _ => none⟩).ts.finished
      = true ∧
    (transfer_worker ⟨none, fun _ => 0, fun i => decide (i ≠ 1)⟩
        ["a.mov", "b.mov", "c.mov"] { DEFAULT_CONFIG with verify_checksums := true }
        [⟨"a.mov", 1⟩, ⟨"b.mov", 1⟩, ⟨"c.mov", 1⟩]
        ⟨initialTransferState, initialSpeedTracker, fun _ => none⟩).ts.active
      = false := by
  norm_num [transfer_worker, runFiles, processFile, copyLoop, jobSetup, finalizeJob,
      resolveSelection, numChunks, CHUNK_SIZE, cancelFlag, check_milestones,
      milestoneLoop, update_speed, destString, baseName, pathSegs, splitOnChar,
      DEFAULT_CONFIG, initialTransferState, initialSpeedTracker, DestFs.write,
      DestFs.remove, List.find?]

/-- C7 witness: on a concrete all-readable listing the scan equals the
sorted qualifying list. -/
theorem scan_files_characterization_witness :
    scan_files [⟨"b.mov", true, 2097152, true⟩, ⟨"a.mov", true, 2097152, true⟩] =
      (([⟨"b.mov", true, 2097152, true⟩,
         ⟨"a.mov", true, 2097152, true⟩] : List FsEntry).insertionSort
            pathLe).filterMap scanKeeps :=
  (scan_files_characterization
    [⟨"b.mov", true, 2097152, true⟩, ⟨"a.mov", true, 2097152, true⟩]).2.2.2
    (by decide)
